import Mathlib

/-!
Verification of the Synapse plugin marketplace core: the data model
(plugins, plugin versions), the compatibility resolver backed by the SQL
function find_latest_compatible_version, the review state machine
(PluginReviewService), the artifact store adapter (SupabaseStorageService)
and the submission workflow (DeveloperService.submitPluginSynx together
with PluginsService.submitPlugin).  The external relational store is
embedded as in-memory lists of records, the external blob store as
association lists from path to content per bucket, and backend failures of
the external stores are injected through explicit fault flags.
-/

/-- Status of a plugin record (enum plugin_status / PluginStatus). -/
inductive PluginStatus where
  | SUBMITTED
  | PENDING_REVIEW
  | PUBLISHED
  | REJECTED
deriving DecidableEq, Repr

/-- Status of a plugin version record (enum version_status / VersionStatus). -/
inductive VersionStatus where
  | SUBMITTED
  | PENDING_REVIEW
  | PUBLISHED
  | REJECTED
  | FLAGGED
deriving DecidableEq, Repr

/-- Admin review decisions (enum ReviewDecision). -/
inductive ReviewDecision where
  | PUBLISH
  | REJECT
deriving DecidableEq, Repr

/-- Error taxonomy of the service layer.  Constructors mirror the exception
classes of the source: ResourceNotFoundException, InvalidVersionException,
VersionConflictException, InvalidTransitionException, storage-level
failures, and the plain `new Error` fallback used for wrapped internal
failures. -/
inductive StoreError where
  | resourceNotFound
  | invalidVersion
  | versionConflict
  | invalidTransition
  | packageInvalid
  | storageFailure
  | internalError
deriving DecidableEq, Repr

/-- Row of the plugins table (entity Plugin).  Timestamps are modelled as
naturals (epoch instants); the soft-delete flag and statistics columns play
no role in the claims under study and are omitted. -/
structure Plugin where
  id : String
  packageId : String
  name : String
  description : Option String
  author : String
  iconKey : Option String
  status : PluginStatus
  category : Option String
  tags : Option String
  sourceUrl : Option String
  latestVersionId : Option String
  createdAt : Nat
deriving DecidableEq, Repr

/-- Row of the plugin_versions table (entity PluginVersion).  The manifest
is an opaque key-value document, per the source which stores it verbatim. -/
structure PluginVersion where
  id : String
  pluginId : String
  version : String
  storagePath : Option String
  storageBucket : Option String
  tempStoragePath : Option String
  fileSizeBytes : Option Nat
  checksumSha256 : Option String
  manifest : List (String × String)
  minAppVersion : String
  releaseNotes : Option String
  status : VersionStatus
  rejectionReason : Option String
  reviewedBy : Option String
  createdAt : Nat
  reviewedAt : Option Nat
  publishedAt : Option Nat
  downloadCount : Nat
  isFlagged : Bool
  flagReason : Option String
deriving DecidableEq, Repr

deriving instance DecidableEq for Except

/-- The relational store: the two tables the core reads and writes. -/
structure DbState where
  plugins : List Plugin
  versions : List PluginVersion
deriving DecidableEq, Repr

/-- PluginsRepository.findByPackageId. -/
def findPluginByPackageId (db : DbState) (packageId : String) : Option Plugin :=
  db.plugins.find? (fun p => p.packageId == packageId)

/-- PluginsRepository.findById. -/
def findPluginById (db : DbState) (id : String) : Option Plugin :=
  db.plugins.find? (fun p => p.id == id)

/-- PluginVersionsRepository.findById. -/
def findVersionById (db : DbState) (id : String) : Option PluginVersion :=
  db.versions.find? (fun v => v.id == id)

/-- A row update restricted to a given primary key, as performed by the
repository update methods (UPDATE ... WHERE id = ...). -/
def updateVersionRec (db : DbState) (id : String)
    (f : PluginVersion → PluginVersion) : DbState :=
  { db with versions := db.versions.map (fun v => if v.id == id then f v else v) }

/-- A plugins-table row update restricted to a given primary key. -/
def updatePluginRec (db : DbState) (id : String)
    (f : Plugin → Plugin) : DbState :=
  { db with plugins := db.plugins.map (fun p => if p.id == id then f p else p) }

/-! ## Version string comparisons

The SQL function find_latest_compatible_version filters with
`v.min_app_version <= p_app_version`, a plain varchar comparison, but
orders with `STRING_TO_ARRAY(v.min_app_version, '.')::INT[] DESC`, a
numeric component-wise comparison.  Both are embedded. -/

/-- Character-list comparison underlying Postgres varchar `<=` (byte /
code-point order; every common collation agrees on pure digit-and-dot
version strings such as those compared here). -/
def charListLe : List Char → List Char → Bool
  | [], _ => true
  | _ :: _, [] => false
  | a :: as, b :: bs =>
      if a < b then true
      else if b < a then false
      else charListLe as bs

/-- Postgres varchar comparison of two strings, as used by the WHERE
clause of find_latest_compatible_version. -/
def varcharLe (a b : String) : Bool :=
  charListLe a.data b.data

/-- Split a character list at every dot (STRING_TO_ARRAY(s, '.')). -/
def splitDots : List Char → List (List Char)
  | [] => [[]]
  | c :: cs =>
      if c = '.' then [] :: splitDots cs
      else
        match splitDots cs with
        | [] => [[c]]
        | grp :: grps => (c :: grp) :: grps

/-- Numeric value of a digit group (the ::INT cast; version components are
digit strings). -/
def charsToNat (cs : List Char) : Nat :=
  cs.foldl (fun acc c => acc * 10 + (c.toNat - 48)) 0

/-- STRING_TO_ARRAY(s, '.')::INT[] — the dotted components of a version
string read as numbers. -/
def versionKey (s : String) : List Nat :=
  (splitDots s.data).map charsToNat

/-- Postgres integer-array strict comparison (lexicographic; a strict
prefix is smaller). -/
def natListLt : List Nat → List Nat → Bool
  | [], [] => false
  | [], _ :: _ => true
  | _ :: _, [] => false
  | a :: as, b :: bs =>
      if a < b then true
      else if b < a then false
      else natListLt as bs

/-- Numeric field-by-field comparison of dotted version strings, the
comparison the specification prescribes for the compatibility filter. -/
def numericVersionLe (a b : String) : Bool :=
  !natListLt (versionKey b) (versionKey a)

/-- The ORDER BY of find_latest_compatible_version: a row sorts ahead of
another when its numeric min_app_version key is larger, ties broken by a
more recent created_at. -/
def betterCandidate (a b : PluginVersion) : Bool :=
  if versionKey a.minAppVersion = versionKey b.minAppVersion then
    decide (b.createdAt < a.createdAt)
  else
    natListLt (versionKey b.minAppVersion) (versionKey a.minAppVersion)

/-- The SQL function find_latest_compatible_version: among the rows of
plugin_versions with the given plugin_id, status PUBLISHED and
min_app_version <= app_version under the varchar comparison, the first row
of the ORDER BY (numeric key descending, created_at descending), if any. -/
def find_latest_compatible_version (versions : List PluginVersion)
    (pluginId appVersion : String) : Option PluginVersion :=
  let filtered := versions.filter (fun v =>
    v.pluginId == pluginId && v.status == VersionStatus.PUBLISHED &&
      varcharLe v.minAppVersion appVersion)
  filtered.foldl (fun acc v =>
    match acc with
    | none => some v
    | some b => if betterCandidate v b then some v else some b) none

/-- PluginsService.getPluginByPackageId, restricted to version selection:
the plugin must exist with status PUBLISHED; with a requested app version
the resolver delegates to find_latest_compatible_version and fails
InvalidVersion when it returns nothing; without one the plugin's
latestVersionId must resolve.  (Response assembly, signed-URL minting and
the fire-and-forget download-count increment do not affect selection and
are not modelled.) -/
def getPluginByPackageId (db : DbState) (packageId : String)
    (appVersion : Option String) : Except StoreError PluginVersion :=
  match findPluginByPackageId db packageId with
  | none => Except.error StoreError.resourceNotFound
  | some plugin =>
    if plugin.status != PluginStatus.PUBLISHED then
      Except.error StoreError.resourceNotFound
    else
      match appVersion with
      | some av =>
        match find_latest_compatible_version db.versions plugin.id av with
        | none => Except.error StoreError.invalidVersion
        | some v => Except.ok v
      | none =>
        match plugin.latestVersionId with
        | none => Except.error StoreError.resourceNotFound
        | some vid =>
          match findVersionById db vid with
          | none => Except.error StoreError.invalidVersion
          | some v => Except.ok v

/-! ## Artifact store adapter (SupabaseStorageService)

The external blob store is modelled per bucket as an association list from
storage path to the stored content.  Supabase Storage reports success when
removing a path that holds no object (absence is not an error condition of
its remove endpoint); backend failures of the store's endpoints are
injected through explicit fault flags. -/

/-- Name of the temporary-uploads bucket. -/
def tempUploadsBucket : String := "temp_uploads"

/-- Name of the permanent plugins bucket. -/
def pluginsBucket : String := "plugins"

/-- Name of the icons bucket. -/
def iconsBucket : String := "icons"

/-- The blob store: one association list of path-to-content per bucket. -/
structure Storage where
  temp : List (String × String)
  perm : List (String × String)
  icons : List (String × String)
deriving DecidableEq, Repr

/-- Look a path up in a bucket. -/
def lookupB (b : List (String × String)) (k : String) : Option String :=
  (b.find? (fun kv => kv.fst == k)).map (fun kv => kv.snd)

/-- Remove every object at a path from a bucket. -/
def eraseB (b : List (String × String)) (k : String) : List (String × String) :=
  b.filter (fun kv => kv.fst != k)

/-- Write (upsert) an object at a path in a bucket. -/
def insertB (b : List (String × String)) (k v : String) : List (String × String) :=
  (k, v) :: eraseB b k

/-- Bucket selection by name. -/
def getBucket (st : Storage) (bucket : String) : List (String × String) :=
  if bucket == tempUploadsBucket then st.temp
  else if bucket == iconsBucket then st.icons
  else st.perm

/-- Replace the contents of a named bucket. -/
def setBucket (st : Storage) (bucket : String) (b : List (String × String)) : Storage :=
  if bucket == tempUploadsBucket then { st with temp := b }
  else if bucket == iconsBucket then { st with icons := b }
  else { st with perm := b }

/-- Fault flags injecting failures of the external stores: each flag makes
the corresponding backend call report an error. -/
structure Faults where
  artifactUploadError : Bool
  iconUploadError : Bool
  downloadError : Bool
  permUploadError : Bool
  removeError : Bool
  dbCreateError : Bool
deriving DecidableEq, Repr

/-- A run with no backend failures. -/
def noFaults : Faults :=
  { artifactUploadError := false, iconUploadError := false,
    downloadError := false, permUploadError := false,
    removeError := false, dbCreateError := false }

/-- The store's remove endpoint: removes whatever is at the path and
reports success, also when the path holds no object (Supabase Storage
semantics); with a backend fault it reports an error and removes nothing.
The Bool result is the error indicator the adapter inspects. -/
def supabaseRemove (b : List (String × String)) (k : String)
    (removeError : Bool) : (List (String × String)) × Bool :=
  if removeError then (b, true) else (eraseB b k, false)

/-- SupabaseStorageService.deleteArtifact: calls the store's remove and
rethrows when it reports an error. -/
def deleteArtifact (st : Storage) (storagePath bucket : String)
    (removeError : Bool) : Storage × Except StoreError Unit :=
  let res := supabaseRemove (getBucket st bucket) storagePath removeError
  if res.snd then (st, Except.error StoreError.storageFailure)
  else (setBucket st bucket res.fst, Except.ok ())

/-- StorageService.getArtifactPath: the deterministic permanent path of an
artifact. -/
def getArtifactPath (packageId version : String) : String :=
  packageId ++ "/v" ++ version ++ "/plugin.synx"

/-- SupabaseStorageService.moveArtifact: download the source object from
the temp bucket, upload it to the permanent path of the plugins bucket,
then delete the source via deleteArtifact; each step's failure is
rethrown.  The returned Storage is the store after the side effects that
completed before the failure, paired with the result. -/
def moveArtifact (st : Storage) (f : Faults)
    (sourcePath packageId version : String) : Storage × Except StoreError String :=
  let targetPath := getArtifactPath packageId version
  match lookupB st.temp sourcePath with
  | none => (st, Except.error StoreError.storageFailure)
  | some data =>
    if f.downloadError then (st, Except.error StoreError.storageFailure)
    else if f.permUploadError then (st, Except.error StoreError.storageFailure)
    else
      let st1 : Storage := { st with perm := insertB st.perm targetPath data }
      let del := deleteArtifact st1 sourcePath tempUploadsBucket f.removeError
      match del.snd with
      | Except.error e => (del.fst, Except.error e)
      | Except.ok _ => (del.fst, Except.ok targetPath)

/-- SHA-256, modelled as an injective fingerprint of the exact bytes: no
claim depends on the digest's value, only on its determinism over the
uploaded content. -/
def calculateChecksum (buffer : String) : String :=
  "sha256-" ++ buffer

/-- Result of uploadArtifact (ArtifactUploadResult). -/
structure ArtifactUploadResult where
  storagePath : String
  bucket : String
  fileSizeBytes : Nat
  checksumSha256 : String
  tempPath : String
deriving DecidableEq, Repr

/-- SupabaseStorageService.uploadArtifact: checksum the buffer, build the
deterministic artifact path, and upsert the buffer at a time-derived path
of the temp bucket.  `now` stands for Date.now() of the call. -/
def uploadArtifact (st : Storage) (f : Faults) (buffer packageId version : String)
    (now : Nat) : Storage × Except StoreError ArtifactUploadResult :=
  let checksum := calculateChecksum buffer
  let storagePath := getArtifactPath packageId version
  let tempPath := "temp_" ++ toString now ++ "/" ++ storagePath
  if f.artifactUploadError then (st, Except.error StoreError.storageFailure)
  else
    ({ st with temp := insertB st.temp tempPath buffer },
     Except.ok { storagePath := storagePath, bucket := tempUploadsBucket,
                 fileSizeBytes := buffer.length, checksumSha256 := checksum,
                 tempPath := tempPath })

/-- The extension of a file name from its last dot, empty when it has no
dot (substring from lastIndexOf of the dot). -/
def extensionOf (name : String) : String :=
  if name.contains ('.') then "." ++ (name.splitOn (".")).getLastD ""
  else ""

/-- SupabaseStorageService.uploadIcon: content-addressed key plus the
original extension; when an object already exists at that path the upload
is skipped entirely (de-duplication, probed in the source by attempting to
mint a signed URL), otherwise the icon is upserted into the icons
bucket. -/
def uploadIcon (st : Storage) (f : Faults) (iconData iconName iconKey : String) :
    Storage × Except StoreError String :=
  let extension := extensionOf iconName
  let storagePath := iconKey ++ extension
  match lookupB st.icons storagePath with
  | some _ => (st, Except.ok storagePath)
  | none =>
    if f.iconUploadError then (st, Except.error StoreError.storageFailure)
    else ({ st with icons := insertB st.icons storagePath iconData },
          Except.ok storagePath)

/-! ## Review state machine (PluginReviewService) -/

/-- Combined system state: the relational store and the blob store. -/
structure SysState where
  db : DbState
  store : Storage
deriving DecidableEq, Repr

/-- Ordering used by PluginVersionsRepository.findPublishedVersions
(ORDER BY created_at DESC): a row sorts ahead of another when its
created_at is at least as recent. -/
def createdDescOrder (a b : PluginVersion) : Prop :=
  b.createdAt ≤ a.createdAt

instance : DecidableRel createdDescOrder :=
  fun a b => inferInstanceAs (Decidable (b.createdAt ≤ a.createdAt))

instance : IsTotal PluginVersion createdDescOrder :=
  ⟨fun a b => Nat.le_total b.createdAt a.createdAt⟩

instance : IsTrans PluginVersion createdDescOrder :=
  ⟨fun _ _ _ h h2 => Nat.le_trans h2 h⟩

/-- PluginVersionsRepository.findPublishedVersions: the plugin's rows with
status PUBLISHED, most recently created first. -/
def findPublishedVersions (db : DbState) (pluginId : String) : List PluginVersion :=
  List.insertionSort createdDescOrder
    (db.versions.filter (fun v =>
      v.pluginId == pluginId && v.status == VersionStatus.PUBLISHED))

/-- PluginReviewService.isValidTransition: pending statuses admit any
decision; PUBLISHED, REJECTED and FLAGGED are terminal for the decision
workflow. -/
def isValidTransition (currentStatus : VersionStatus) (_decision : ReviewDecision) : Bool :=
  match currentStatus with
  | VersionStatus.SUBMITTED => true
  | VersionStatus.PENDING_REVIEW => true
  | VersionStatus.PUBLISHED => false
  | VersionStatus.REJECTED => false
  | VersionStatus.FLAGGED => false

/-- PluginReviewService.performAutomatedSafetyCheck: a placeholder that
always passes. -/
def performAutomatedSafetyCheck (_version : PluginVersion) : Bool :=
  true

/-- Tail of PluginReviewService.handlePublishDecision after the optional
artifact move: stamp the version PUBLISHED and point the parent plugin at
it. -/
def publishTail (sys : SysState) (version : PluginVersion) (plugin : Plugin)
    (reviewedBy : String) (now : Nat) : SysState × Except StoreError Unit :=
  let db2 := updateVersionRec sys.db version.id (fun w =>
    { w with status := VersionStatus.PUBLISHED, reviewedAt := some now,
             reviewedBy := some reviewedBy, rejectionReason := none,
             publishedAt := some now })
  let db3 := updatePluginRec db2 plugin.id (fun p =>
    { p with latestVersionId := some version.id, status := PluginStatus.PUBLISHED })
  ({ sys with db := db3 }, Except.ok ())

/-- PluginReviewService.handlePublishDecision: when the version holds a
temp path, move the artifact to permanent storage and record the new
location on the version row (a move failure is wrapped in a generic
error); then stamp the version PUBLISHED and update the parent plugin. -/
def handlePublishDecision (sys : SysState) (f : Faults) (version : PluginVersion)
    (plugin : Plugin) (reviewedBy : String) (now : Nat) :
    SysState × Except StoreError Unit :=
  match version.tempStoragePath with
  | some tp =>
    let mv := moveArtifact sys.store f tp plugin.packageId version.version
    match mv.snd with
    | Except.error _ => ({ sys with store := mv.fst }, Except.error StoreError.internalError)
    | Except.ok targetPath =>
      let db1 := updateVersionRec sys.db version.id (fun w =>
        { w with storagePath := some targetPath, storageBucket := some pluginsBucket,
                 tempStoragePath := none })
      publishTail { db := db1, store := mv.fst } version plugin reviewedBy now
  | none => publishTail sys version plugin reviewedBy now

/-- PluginReviewService.handleRejectDecision: delete the temp artifact
(failures logged and swallowed), stamp the version REJECTED and clear its
temp path; when the rejected version was the plugin's latest, promote the
most recently created remaining PUBLISHED version, or clear the reference
and demote the plugin to REJECTED when none exists. -/
def handleRejectDecision (sys : SysState) (f : Faults) (version : PluginVersion)
    (plugin : Plugin) (reviewedBy : String) (rejectionReason : Option String)
    (now : Nat) : SysState × Except StoreError Unit :=
  let store1 :=
    match version.tempStoragePath with
    | some tp => (deleteArtifact sys.store tp tempUploadsBucket f.removeError).fst
    | none => sys.store
  let db2 := updateVersionRec sys.db version.id (fun w =>
    { w with status := VersionStatus.REJECTED, reviewedAt := some now,
             reviewedBy := some reviewedBy, rejectionReason := rejectionReason,
             tempStoragePath := none })
  if plugin.latestVersionId == some version.id then
    match findPublishedVersions db2 plugin.id with
    | [] =>
      let db3 := updatePluginRec db2 plugin.id (fun p =>
        { p with latestVersionId := none, status := PluginStatus.REJECTED })
      ({ db := db3, store := store1 }, Except.ok ())
    | top :: _ =>
      let db3 := updatePluginRec db2 plugin.id (fun p =>
        { p with latestVersionId := some top.id })
      ({ db := db3, store := store1 }, Except.ok ())
  else
    ({ db := db2, store := store1 }, Except.ok ())

/-- PluginReviewService.submitReviewDecision: load the version and its
plugin (ResourceNotFound when missing), validate the transition, run the
automated safety check on a PUBLISH decision, then dispatch to the
publish or reject handler. -/
def submitReviewDecision (sys : SysState) (f : Faults) (versionId : String)
    (decision : ReviewDecision) (reviewedBy : String)
    (rejectionReason : Option String) (now : Nat) :
    SysState × Except StoreError Unit :=
  match findVersionById sys.db versionId with
  | none => (sys, Except.error StoreError.resourceNotFound)
  | some version =>
    match findPluginById sys.db version.pluginId with
    | none => (sys, Except.error StoreError.resourceNotFound)
    | some plugin =>
      if !(isValidTransition version.status decision) then
        (sys, Except.error StoreError.invalidTransition)
      else if decision == ReviewDecision.PUBLISH &&
          !(performAutomatedSafetyCheck version) then
        (sys, Except.error StoreError.invalidTransition)
      else
        match decision with
        | ReviewDecision.PUBLISH =>
          handlePublishDecision sys f version plugin reviewedBy now
        | ReviewDecision.REJECT =>
          handleRejectDecision sys f version plugin reviewedBy rejectionReason now

/-- PluginReviewService.flagVersion: load the version and its plugin
(ResourceNotFound when missing), then set isFlagged, flagReason and status
FLAGGED on the version — with no check of its current status — and, when
the version was the plugin's latest, clear the reference and demote the
plugin to REJECTED. -/
def flagVersion (sys : SysState) (versionId reason _flaggedBy : String) :
    SysState × Except StoreError Unit :=
  match findVersionById sys.db versionId with
  | none => (sys, Except.error StoreError.resourceNotFound)
  | some version =>
    match findPluginById sys.db version.pluginId with
    | none => (sys, Except.error StoreError.resourceNotFound)
    | some plugin =>
      let db1 := updateVersionRec sys.db versionId (fun w =>
        { w with isFlagged := true, flagReason := some reason,
                 status := VersionStatus.FLAGGED })
      let db2 :=
        if some versionId == plugin.latestVersionId then
          updatePluginRec db1 plugin.id (fun p =>
            { p with latestVersionId := none, status := PluginStatus.REJECTED })
        else db1
      ({ sys with db := db2 }, Except.ok ())

/-! ## Submission workflow (PluginsService.submitPlugin and
DeveloperService.submitPluginSynx) -/

/-- JavaScript `x || null` on an optional string: undefined and the empty
string both become null. -/
def strOrNull (o : Option String) : Option String :=
  match o with
  | some s => if s == "" then none else some s
  | none => none

/-- JavaScript `x || null` on an optional number: undefined and zero both
become null. -/
def natOrNull (o : Option Nat) : Option Nat :=
  match o with
  | some n => if n == 0 then none else some n
  | none => none

/-- PluginVersionsRepository.create: the inserted row with its defaulted
columns (status SUBMITTED, download_count 0, is_flagged false); a backend
failure of the insert is rethrown. -/
def versionsCreate (db : DbState) (f : Faults) (pluginId version : String)
    (manifest : List (String × String)) (minAppVersion : String)
    (releaseNotes storagePath storageBucket tempStoragePath : Option String)
    (fileSizeBytes : Option Nat) (checksumSha256 : Option String)
    (newVersionId : String) (now : Nat) :
    DbState × Except StoreError PluginVersion :=
  if f.dbCreateError then (db, Except.error StoreError.internalError)
  else
    let v : PluginVersion :=
      { id := newVersionId, pluginId := pluginId, version := version,
        storagePath := strOrNull storagePath,
        storageBucket := strOrNull storageBucket,
        tempStoragePath := strOrNull tempStoragePath,
        fileSizeBytes := natOrNull fileSizeBytes,
        checksumSha256 := strOrNull checksumSha256,
        manifest := manifest, minAppVersion := minAppVersion,
        releaseNotes := strOrNull releaseNotes,
        status := VersionStatus.SUBMITTED, rejectionReason := none,
        reviewedBy := none, createdAt := now, reviewedAt := none,
        publishedAt := none, downloadCount := 0, isFlagged := false,
        flagReason := none }
    ({ db with versions := db.versions ++ [v] }, Except.ok v)

/-- Shared tail of PluginsService.submitPlugin: create the version row,
then advance the plugin from SUBMITTED to PENDING_REVIEW when this was its
first version. -/
def submitPluginCreateVersion (db : DbState) (f : Faults) (plugin : Plugin)
    (version : String) (manifest : List (String × String)) (minAppVersion : String)
    (releaseNotes storagePath storageBucket tempStoragePath : Option String)
    (fileSizeBytes : Option Nat) (checksumSha256 : Option String)
    (newVersionId : String) (now : Nat) :
    DbState × Except StoreError PluginVersion :=
  let created := versionsCreate db f plugin.id version manifest minAppVersion
    releaseNotes storagePath storageBucket tempStoragePath fileSizeBytes
    checksumSha256 newVersionId now
  match created.snd with
  | Except.error e => (created.fst, Except.error e)
  | Except.ok v =>
    if plugin.status == PluginStatus.SUBMITTED then
      (updatePluginRec created.fst plugin.id (fun p =>
        { p with status := PluginStatus.PENDING_REVIEW }), Except.ok v)
    else
      (created.fst, Except.ok v)

/-- PluginsService.submitPlugin: create the plugin on first submission
under the packageId (status SUBMITTED, per PluginsRepository.create),
otherwise reject a duplicate (pluginId, version) pair with
VersionConflict; then create the version row and advance a first-time
plugin to PENDING_REVIEW. -/
def submitPlugin (db : DbState) (f : Faults)
    (packageId name description author : String)
    (iconKey category tags sourceUrl : Option String)
    (version : String) (manifest : List (String × String)) (minAppVersion : String)
    (releaseNotes storagePath storageBucket tempStoragePath : Option String)
    (fileSizeBytes : Option Nat) (checksumSha256 : Option String)
    (newPluginId newVersionId : String) (now : Nat) :
    DbState × Except StoreError PluginVersion :=
  match findPluginByPackageId db packageId with
  | none =>
    let plugin : Plugin :=
      { id := newPluginId, packageId := packageId, name := name,
        description := strOrNull (some description), author := author,
        iconKey := strOrNull iconKey, status := PluginStatus.SUBMITTED,
        category := strOrNull category, tags := strOrNull tags,
        sourceUrl := strOrNull sourceUrl, latestVersionId := none,
        createdAt := now }
    let db1 : DbState := { db with plugins := db.plugins ++ [plugin] }
    submitPluginCreateVersion db1 f plugin version manifest minAppVersion
      releaseNotes storagePath storageBucket tempStoragePath fileSizeBytes
      checksumSha256 newVersionId now
  | some plugin =>
    match db.versions.find? (fun v => v.pluginId == plugin.id && v.version == version) with
    | some _ => (db, Except.error StoreError.versionConflict)
    | none =>
      submitPluginCreateVersion db f plugin version manifest minAppVersion
        releaseNotes storagePath storageBucket tempStoragePath fileSizeBytes
        checksumSha256 newVersionId now

/-- A developer-submitted .synx package after extraction
(SynxPackageService.extractPackage): the manifest fields the workflow
reads by name, the code entry, and an optional icon entry. -/
structure SynxPackage where
  manifestName : Option String
  manifestVersion : Option String
  manifestDescription : Option String
  manifestAuthor : Option String
  manifestMinAppVersion : Option String
  manifest : List (String × String)
  jsCode : String
  iconData : Option String
  iconName : Option String
deriving DecidableEq, Repr

/-- DeveloperService.cleanupFailedUpload: best-effort deletion of the icon
and the staged temp artifact recorded in the partial-upload state; each
deletion's failure is logged and swallowed. -/
def cleanupFailedUpload (store : Storage) (f : Faults)
    (uploadedIconKey tempPath : Option String) : Storage :=
  let store1 :=
    match uploadedIconKey with
    | some key => (deleteArtifact store key iconsBucket f.removeError).fst
    | none => store
  match tempPath with
  | some tp => (deleteArtifact store1 tp tempUploadsBucket f.removeError).fst
  | none => store1

/-- Steps 4 and 5 of DeveloperService.submitPluginSynx, entered with the
icon step done: stage the artifact in temp storage, then create the
database records; a failure triggers cleanupFailedUpload over the
resources recorded so far before the original error propagates. -/
def submitSynxStage2 (sys : SysState) (f : Faults) (fileBuffer packageId : String)
    (manifest : List (String × String))
    (version name description author minAppVersion : String)
    (uploadedIconKey : Option String) (newPluginId newVersionId : String)
    (now : Nat) : SysState × Except StoreError PluginVersion :=
  let up := uploadArtifact sys.store f fileBuffer packageId version now
  match up.snd with
  | Except.error e =>
    ({ sys with store := cleanupFailedUpload up.fst f uploadedIconKey none },
     Except.error e)
  | Except.ok uploadResult =>
    let sys1 : SysState := { sys with store := up.fst }
    let sub := submitPlugin sys1.db f packageId name description author
      uploadedIconKey none none none version manifest minAppVersion none
      (some uploadResult.storagePath) (some uploadResult.bucket)
      (some uploadResult.tempPath) (some uploadResult.fileSizeBytes)
      (some uploadResult.checksumSha256) newPluginId newVersionId now
    match sub.snd with
    | Except.error e =>
      ({ db := sub.fst,
         store := cleanupFailedUpload sys1.store f uploadedIconKey
           (some uploadResult.tempPath) },
       Except.error e)
    | Except.ok createdVersion =>
      ({ db := sub.fst, store := sys1.store }, Except.ok createdVersion)

/-- DeveloperService.submitPluginSynx: extract the package (its outcome is
passed in, extraction being the package parser's contract), derive the
manifest metadata with the documented defaults, upload the icon when
present (content-addressed by checksum), then stage the artifact and
create the records; any failure after a resource was recorded triggers
compensating cleanup before the original error propagates. -/
def submitPluginSynx (sys : SysState) (f : Faults) (fileBuffer packageId : String)
    (pkgResult : Except StoreError SynxPackage)
    (newPluginId newVersionId : String) (now : Nat) :
    SysState × Except StoreError PluginVersion :=
  match pkgResult with
  | Except.error e => (sys, Except.error e)
  | Except.ok pkg =>
    let version := pkg.manifestVersion.getD ("1.0.0")
    let name := pkg.manifestName.getD packageId
    let description := pkg.manifestDescription.getD ""
    let author := pkg.manifestAuthor.getD ("Unknown")
    let minAppVersion := pkg.manifestMinAppVersion.getD ("1.0.0")
    match pkg.iconData, pkg.iconName with
    | some iconData, some iconName =>
      let iconHash := calculateChecksum iconData
      let up := uploadIcon sys.store f iconData iconName iconHash
      (match up.snd with
       | Except.error e => ({ sys with store := up.fst }, Except.error e)
       | Except.ok iconKey =>
         submitSynxStage2 { sys with store := up.fst } f fileBuffer packageId
           pkg.manifest version name description author minAppVersion
           (some iconKey) newPluginId newVersionId now)
    | _, _ =>
      submitSynxStage2 sys f fileBuffer packageId pkg.manifest version name
        description author minAppVersion none newPluginId newVersionId now

/-! ## Helper lemmas -/

/-- A keyed row update is observed by a keyed lookup: when the update
preserves the key, looking the key up afterwards returns the updated
row. -/
lemma find?_map_update {α : Type} (key : α → String) (l : List α) (k : String)
    (g : α → α) (hg : ∀ w, key (g w) = key w) (v : α)
    (hv : l.find? (fun w => key w == k) = some v) :
    (l.map (fun w => if key w == k then g w else w)).find?
      (fun w => key w == k) = some (g v) := by
  rw [List.find?_map]
  have hpred : ((fun w => key w == k) ∘ fun w => if key w == k then g w else w)
      = (fun w => key w == k) := by
    funext w
    by_cases h : key w = k
    · simp [h, hg]
    · simp [h, hg]
  rw [hpred, hv]
  have hp := List.find?_some hv
  simp only [] at hp
  have hk : key v = k := by simpa using hp
  simp [hk]

/-- Fixture: a version row with the given identifiers, compatibility
floor, status and creation instant, all other columns at their
just-created defaults. -/
def mkVersion (id pluginId version minAppVersion : String)
    (status : VersionStatus) (createdAt : Nat) : PluginVersion :=
  { id := id, pluginId := pluginId, version := version, storagePath := none,
    storageBucket := none, tempStoragePath := none, fileSizeBytes := none,
    checksumSha256 := none, manifest := [], minAppVersion := minAppVersion,
    releaseNotes := none, status := status, rejectionReason := none,
    reviewedBy := none, createdAt := createdAt, reviewedAt := none,
    publishedAt := none, downloadCount := 0, isFlagged := false,
    flagReason := none }

/-- Fixture: a plugin row with the given identifiers, status and latest
reference. -/
def mkPlugin (id packageId : String) (status : PluginStatus)
    (latestVersionId : Option String) : Plugin :=
  { id := id, packageId := packageId, name := "Test Plugin",
    description := none, author := "Author", iconKey := none,
    status := status, category := none, tags := none, sourceUrl := none,
    latestVersionId := latestVersionId, createdAt := 0 }

/-! ## C1 — compatibility resolver -/

/-- A published plugin whose only version requires app 1.9.0, queried by a
caller running app 1.10.0. -/
def c1Version : PluginVersion :=
  mkVersion ("v1") ("p1") ("2.0.0") ("1.9.0") VersionStatus.PUBLISHED 1

/-- Database holding just that plugin and version. -/
def c1Db : DbState :=
  { plugins := [mkPlugin ("p1") ("com.example.plugin")
      PluginStatus.PUBLISHED (some ("v1"))],
    versions := [c1Version] }

/-- Claim C1: the resolver was specified to filter with the numeric
field-by-field comparison, under which minAppVersion 1.9.0 is compatible
with requested app version 1.10.0; but the WHERE clause of
find_latest_compatible_version compares the varchar values, under which
"1.9.0" <= "1.10.0" is false, so the only published version is excluded
and the resolver fails InvalidVersion where the specified behaviour
returns the version. -/
theorem resolver_where_clause_is_string_comparison :
  numericVersionLe ("1.9.0") ("1.10.0") = true ∧
  varcharLe ("1.9.0") ("1.10.0") = false ∧
  c1Version.status = VersionStatus.PUBLISHED ∧
  c1Version.minAppVersion = "1.9.0" ∧
  find_latest_compatible_version c1Db.versions ("p1") ("1.10.0") = none ∧
  getPluginByPackageId c1Db ("com.example.plugin") (some ("1.10.0")) =
    Except.error StoreError.invalidVersion := by
  refine ⟨by decide, by decide, rfl, rfl, by decide, by decide⟩

/-! ## C10 — automated safety check -/

/-- Claim C10: performAutomatedSafetyCheck returns true on every version
record, and consequently a PUBLISH decision on a pending version is never
rejected with InvalidTransition: the safety-check veto branch is
unreachable. -/
theorem safety_check_always_passes
    (version : PluginVersion) (sys : SysState) (f : Faults) (vid rb : String)
    (rr : Option String) (now : Nat) (v : PluginVersion) (p : Plugin)
    (hv : findVersionById sys.db vid = some v)
    (hp : findPluginById sys.db v.pluginId = some p)
    (hpend : isValidTransition v.status ReviewDecision.PUBLISH = true) :
    performAutomatedSafetyCheck version = true ∧
    (submitReviewDecision sys f vid ReviewDecision.PUBLISH rb rr now).snd ≠
      Except.error StoreError.invalidTransition := by
  constructor
  · rfl
  · unfold submitReviewDecision
    simp only [hv, hp, hpend, performAutomatedSafetyCheck, Bool.not_true,
      Bool.and_false, Bool.not_false, ite_false, ite_true]
    unfold handlePublishDecision publishTail
    cases htp : v.tempStoragePath with
    | none => simp
    | some tp =>
      cases hmv : (moveArtifact sys.store f tp p.packageId v.version).snd with
      | error e => simp [hmv]
      | ok t => simp [hmv]

/-- Fixtures shared by the review-service theorems: an empty blob store. -/
def emptyStore : Storage :=
  { temp := [], perm := [], icons := [] }

/-- Pending version used to witness claims over the review service. -/
def c10V : PluginVersion :=
  mkVersion ("v1") ("p1") ("1.0.0") ("1.0.0") VersionStatus.PENDING_REVIEW 1

/-- Its plugin. -/
def c10P : Plugin :=
  mkPlugin ("p1") ("com.example.a") PluginStatus.PENDING_REVIEW none

/-- System holding the pending version. -/
def c10Sys : SysState :=
  { db := { plugins := [c10P], versions := [c10V] }, store := emptyStore }

/-- Witness for C10: a concrete PUBLISH decision on a pending version is
not vetoed. -/
theorem safety_check_always_passes_witness :
    performAutomatedSafetyCheck c10V = true ∧
    (submitReviewDecision c10Sys noFaults ("v1") ReviewDecision.PUBLISH
        ("admin") none 5).snd ≠
      Except.error StoreError.invalidTransition :=
  safety_check_always_passes c10V c10Sys noFaults ("v1") ("admin") none 5
    c10V c10P (by decide) (by decide) (by decide)

/-- handleRejectDecision reports success on every input. -/
lemma handleReject_ok (sys : SysState) (f : Faults) (v : PluginVersion)
    (p : Plugin) (rb : String) (rr : Option String) (now : Nat) :
    (handleRejectDecision sys f v p rb rr now).snd = Except.ok () := by
  cases htp : v.tempStoragePath <;>
    cases hl : (p.latestVersionId == some v.id) <;>
      simp only [handleRejectDecision, htp, hl, if_true, if_false] <;>
      (try rfl) <;>
      (split <;> rfl)

/-- handlePublishDecision reports success or the generic wrapped move
failure, never an InvalidTransition. -/
lemma handlePublish_snd (sys : SysState) (f : Faults) (v : PluginVersion)
    (p : Plugin) (rb : String) (now : Nat) :
    (handlePublishDecision sys f v p rb now).snd = Except.ok () ∨
    (handlePublishDecision sys f v p rb now).snd =
      Except.error StoreError.internalError := by
  unfold handlePublishDecision publishTail
  cases htp : v.tempStoragePath with
  | none => left; rfl
  | some tp =>
    cases hmv : (moveArtifact sys.store f tp p.packageId v.version).snd with
    | error e => right; simp [hmv]
    | ok t => left; simp [hmv]

/-! ## C4 — InvalidTransition characterization and atomicity -/

/-- Claim C4: once the version and its plugin are found,
submitReviewDecision reports InvalidTransition exactly when the version's
status is terminal (PUBLISHED, REJECTED or FLAGGED) or the decision is
PUBLISH and the automated safety check fails; and whenever it reports
InvalidTransition the whole system state is unchanged. -/
theorem submit_review_invalid_transition_iff
    (sys : SysState) (f : Faults) (vid rb : String) (d : ReviewDecision)
    (rr : Option String) (now : Nat) (v : PluginVersion) (p : Plugin)
    (hv : findVersionById sys.db vid = some v)
    (hp : findPluginById sys.db v.pluginId = some p) :
    ((submitReviewDecision sys f vid d rb rr now).snd =
        Except.error StoreError.invalidTransition ↔
      ((v.status = VersionStatus.PUBLISHED ∨ v.status = VersionStatus.REJECTED ∨
          v.status = VersionStatus.FLAGGED) ∨
        (d = ReviewDecision.PUBLISH ∧ performAutomatedSafetyCheck v = false))) ∧
    ((submitReviewDecision sys f vid d rb rr now).snd =
        Except.error StoreError.invalidTransition →
      (submitReviewDecision sys f vid d rb rr now).fst = sys) := by
  unfold submitReviewDecision
  simp only [hv, hp]
  cases hs : v.status <;> cases d <;>
    (have hr := handleReject_ok sys f v p rb rr now
     rcases handlePublish_snd sys f v p rb now with h | h <;>
       simp [isValidTransition, performAutomatedSafetyCheck, h, hr, hs])

/-- A published version held by a plugin as its latest, used to witness
the C4 characterization. -/
def c4V : PluginVersion :=
  mkVersion ("v4") ("p4") ("1.0.0") ("1.0.0") VersionStatus.PUBLISHED 1

/-- Its plugin. -/
def c4P : Plugin :=
  mkPlugin ("p4") ("com.example.b") PluginStatus.PUBLISHED (some ("v4"))

/-- System for the C4 witness. -/
def c4Sys : SysState :=
  { db := { plugins := [c4P], versions := [c4V] }, store := emptyStore }

/-- Witness for C4: re-reviewing an already PUBLISHED version is rejected
with InvalidTransition and leaves the state unchanged. -/
theorem submit_review_invalid_transition_iff_witness :
    (submitReviewDecision c4Sys noFaults ("v4") ReviewDecision.PUBLISH
        ("admin") none 7).snd = Except.error StoreError.invalidTransition ∧
    (submitReviewDecision c4Sys noFaults ("v4") ReviewDecision.PUBLISH
        ("admin") none 7).fst = c4Sys := by
  have h := submit_review_invalid_transition_iff c4Sys noFaults ("v4") ("admin")
    ReviewDecision.PUBLISH none 7 c4V c4P (by decide) (by decide)
  have he := h.1.mpr (Or.inl (Or.inl rfl))
  exact ⟨he, h.2 he⟩

/-! ## C5 — reachability of FLAGGED -/

/-- A version that is merely SUBMITTED. -/
def c5V : PluginVersion :=
  mkVersion ("v5") ("p5") ("1.0.0") ("1.0.0") VersionStatus.SUBMITTED 1

/-- Its plugin. -/
def c5P : Plugin :=
  mkPlugin ("p5") ("com.example.c") PluginStatus.PENDING_REVIEW none

/-- System holding the submitted version. -/
def c5Sys : SysState :=
  { db := { plugins := [c5P], versions := [c5V] }, store := emptyStore }

/-- Claim C5 counterexample: flagVersion performs no check of the
version's current status, so a version whose status is SUBMITTED — never
PUBLISHED — is moved to FLAGGED successfully, refuting that FLAGGED is
reachable only from PUBLISHED. -/
theorem flag_from_submitted_counterexample :
    c5V.status = VersionStatus.SUBMITTED ∧
    (flagVersion c5Sys ("v5") ("malware") ("admin")).snd = Except.ok () ∧
    ((findVersionById (flagVersion c5Sys ("v5") ("malware") ("admin")).fst.db
        ("v5")).map (fun v => v.status)) = some VersionStatus.FLAGGED := by
  refine ⟨rfl, by decide, by decide⟩

/-- Claim C5 as amended: flagVersion transitions any existing version of
an existing plugin to FLAGGED regardless of its current status — versions
in SUBMITTED, PENDING_REVIEW or REJECTED status can also be flagged, the
PUBLISHED-only restriction not being enforced anywhere. -/
theorem flag_version_any_status
    (sys : SysState) (vid reason fb : String) (v : PluginVersion) (p : Plugin)
    (hv : findVersionById sys.db vid = some v)
    (hp : findPluginById sys.db v.pluginId = some p) :
    (flagVersion sys vid reason fb).snd = Except.ok () ∧
    findVersionById (flagVersion sys vid reason fb).fst.db vid =
      some { v with isFlagged := true, flagReason := some reason,
                    status := VersionStatus.FLAGGED } := by
  have hupd := find?_map_update (fun w : PluginVersion => w.id) sys.db.versions
    vid (fun w => { w with isFlagged := true, flagReason := some reason,
                           status := VersionStatus.FLAGGED })
    (fun w => rfl) v hv
  constructor
  · unfold flagVersion
    simp only [hv, hp]
  · unfold flagVersion
    simp only [hv, hp]
    cases hl : (some vid == p.latestVersionId) with
    | false =>
      rw [if_neg (by simp [hl])]
      exact hupd
    | true =>
      rw [if_pos (by simp [hl])]
      exact hupd

/-- Witness for the amended C5: flagging the concrete SUBMITTED version
succeeds and rewrites its row. -/
theorem flag_version_any_status_witness :
    (flagVersion c5Sys ("v5") ("spam") ("mod")).snd = Except.ok () ∧
    findVersionById (flagVersion c5Sys ("v5") ("spam") ("mod")).fst.db ("v5") =
      some { c5V with isFlagged := true, flagReason := some ("spam"),
                      status := VersionStatus.FLAGGED } :=
  flag_version_any_status c5Sys ("v5") ("spam") ("mod") c5V c5P
    (by decide) (by decide)

/-! ## C9 — idempotent delete -/

/-- Looking up a key not present in a bucket means erasing it is a no-op. -/
lemma eraseB_of_absent (b : List (String × String)) (k : String)
    (h : lookupB b k = none) : eraseB b k = b := by
  have h2 : b.find? (fun kv => kv.fst == k) = none := by
    cases hf : b.find? (fun kv => kv.fst == k) with
    | none => rfl
    | some kv => simp [lookupB, hf] at h
  rw [List.find?_eq_none] at h2
  unfold eraseB
  rw [List.filter_eq_self]
  intro a ha
  have := h2 a ha
  simpa using this

/-- Writing a named bucket back unchanged is the identity. -/
lemma setBucket_getBucket (st : Storage) (bucket : String) :
    setBucket st bucket (getBucket st bucket) = st := by
  unfold setBucket getBucket
  cases h1 : (bucket == tempUploadsBucket) <;>
    cases h2 : (bucket == iconsBucket) <;>
    simp [h1, h2]

/-- Claim C9: the adapter's delete is idempotent — deleting a path at
which the bucket holds no object reports success (Supabase's remove does
not treat absence as an error, so the adapter has nothing to rethrow) and
leaves the store unchanged. -/
theorem delete_artifact_idempotent (st : Storage) (path bucket : String)
    (habs : lookupB (getBucket st bucket) path = none) :
    (deleteArtifact st path bucket false).snd = Except.ok () ∧
    (deleteArtifact st path bucket false).fst = st := by
  unfold deleteArtifact supabaseRemove
  refine ⟨rfl, ?_⟩
  show setBucket st bucket (eraseB (getBucket st bucket) path) = st
  rw [eraseB_of_absent _ _ habs]
  exact setBucket_getBucket st bucket

/-- Witness for C9: deleting a path absent from a concrete store. -/
theorem delete_artifact_idempotent_witness :
    (deleteArtifact { temp := [(("a"), ("blob"))], perm := [], icons := [] }
        ("missing/path") tempUploadsBucket false).snd = Except.ok () ∧
    (deleteArtifact { temp := [(("a"), ("blob"))], perm := [], icons := [] }
        ("missing/path") tempUploadsBucket false).fst =
      { temp := [(("a"), ("blob"))], perm := [], icons := [] } :=
  delete_artifact_idempotent
    { temp := [(("a"), ("blob"))], perm := [], icons := [] }
    ("missing/path") tempUploadsBucket (by decide)

/-! ## C8 — artifact move ordering -/

/-- After erasing a key, looking it up yields nothing. -/
lemma lookupB_eraseB (b : List (String × String)) (k : String) :
    lookupB (eraseB b k) k = none := by
  unfold lookupB eraseB
  have h : (b.filter (fun kv => kv.fst != k)).find? (fun kv => kv.fst == k) = none := by
    rw [List.find?_eq_none]
    intro kv hkv
    rcases List.mem_filter.mp hkv with ⟨_, hne⟩
    simp at hne
    simp [hne]
  rw [h]
  rfl

/-- After writing a key, looking it up yields the written content. -/
lemma lookupB_insertB (b : List (String × String)) (k v : String) :
    lookupB (insertB b k v) k = some v := by
  unfold lookupB insertB
  rw [List.find?_cons_of_pos _ (by simp)]
  rfl

/-- Computation of the adapter delete on the temp bucket without a fault. -/
lemma deleteArtifact_temp_ok (st : Storage) (path : String) :
    deleteArtifact st path tempUploadsBucket false =
      ({ st with temp := eraseB st.temp path }, Except.ok ()) := rfl

/-- Computation of the adapter delete on the icons bucket without a fault. -/
lemma deleteArtifact_icons_ok (st : Storage) (path : String) :
    deleteArtifact st path iconsBucket false =
      ({ st with icons := eraseB st.icons path }, Except.ok ()) := rfl

/-- Computation of the adapter delete under a backend fault: the error is
rethrown and nothing is removed. -/
lemma deleteArtifact_err (st : Storage) (path bucket : String) :
    deleteArtifact st path bucket true =
      (st, Except.error StoreError.storageFailure) := rfl

/-- Claim C8: moveArtifact downloads the source, uploads to the permanent
path, and only then deletes the source.  A failure at or before the
destination upload returns the store untouched; on any failure the temp
bucket still holds the source unchanged; and when the move succeeds the
returned path is the deterministic artifact path, the permanent bucket
holds the moved content, and only then is the source gone. -/
theorem move_artifact_never_deletes_source_early
    (st : Storage) (f : Faults) (src pid ver : String) :
    ((lookupB st.temp src = none ∨ f.downloadError = true ∨ f.permUploadError = true) →
      (moveArtifact st f src pid ver).fst = st ∧
      (moveArtifact st f src pid ver).snd = Except.error StoreError.storageFailure) ∧
    (∀ e, (moveArtifact st f src pid ver).snd = Except.error e →
      lookupB (moveArtifact st f src pid ver).fst.temp src = lookupB st.temp src) ∧
    (∀ t, (moveArtifact st f src pid ver).snd = Except.ok t →
      t = getArtifactPath pid ver ∧
      lookupB (moveArtifact st f src pid ver).fst.perm (getArtifactPath pid ver) =
        lookupB st.temp src ∧
      lookupB (moveArtifact st f src pid ver).fst.temp src = none) := by
  unfold moveArtifact
  cases hlook : lookupB st.temp src with
  | none =>
    exact ⟨fun _ => ⟨rfl, rfl⟩, fun e he => hlook, fun t ht => by simp at ht⟩
  | some data =>
    cases hdl : f.downloadError with
    | true =>
      exact ⟨fun _ => ⟨rfl, rfl⟩, fun e he => hlook, fun t ht => by simp at ht⟩
    | false =>
      cases hup : f.permUploadError with
      | true =>
        exact ⟨fun _ => ⟨rfl, rfl⟩, fun e he => hlook, fun t ht => by simp at ht⟩
      | false =>
        cases hrm : f.removeError with
        | true =>
          refine ⟨?_, fun e he => hlook, fun t ht => ?_⟩
          · intro h
            rcases h with h | h | h <;> cases h
          · have ht2 : (Except.error StoreError.storageFailure : Except StoreError String) =
                Except.ok t := ht
            simp at ht2
        | false =>
          refine ⟨?_, fun e he => ?_, fun t ht => ?_⟩
          · intro h
            rcases h with h | h | h <;> cases h
          · have he2 : (Except.ok (getArtifactPath pid ver) : Except StoreError String) =
                Except.error e := he
            simp at he2
          · have ht2 : (Except.ok (getArtifactPath pid ver) : Except StoreError String) =
                Except.ok t := ht
            cases ht2
            refine ⟨rfl, ?_, ?_⟩
            · show lookupB (insertB st.perm (getArtifactPath pid ver) data)
                  (getArtifactPath pid ver) = some data
              exact lookupB_insertB _ _ _
            · show lookupB (eraseB st.temp src) src = none
              exact lookupB_eraseB _ _

/-- Store used to witness the artifact move. -/
def c8Store : Storage :=
  { temp := [(("t/a"), ("blob"))], perm := [], icons := [] }

/-- Witness for C8: a concrete successful move lands the content at the
deterministic permanent path and only then removes the source. -/
theorem move_artifact_never_deletes_source_early_witness :
    getArtifactPath ("com.x") ("1.0.0") = getArtifactPath ("com.x") ("1.0.0") ∧
    lookupB (moveArtifact c8Store noFaults ("t/a") ("com.x") ("1.0.0")).fst.perm
        (getArtifactPath ("com.x") ("1.0.0")) = lookupB c8Store.temp ("t/a") ∧
    lookupB (moveArtifact c8Store noFaults ("t/a") ("com.x") ("1.0.0")).fst.temp
        ("t/a") = none :=
  (move_artifact_never_deletes_source_early c8Store noFaults ("t/a") ("com.x")
      ("1.0.0")).2.2 (getArtifactPath ("com.x") ("1.0.0")) (by decide)

/-! ## C2 — publish postconditions -/

/-- A successful move returns the deterministic artifact path. -/
lemma moveArtifact_ok_target (st : Storage) (f : Faults) (src pid ver t : String)
    (h : (moveArtifact st f src pid ver).snd = Except.ok t) :
    t = getArtifactPath pid ver := by
  unfold moveArtifact at h
  cases hlook : lookupB st.temp src with
  | none => rw [hlook] at h; simp at h
  | some data =>
    rw [hlook] at h
    cases hdl : f.downloadError with
    | true => simp [hdl] at h
    | false =>
      cases hup : f.permUploadError with
      | true => simp [hdl, hup] at h
      | false =>
        cases hrm : f.removeError with
        | true => simp [hdl, hup, hrm, deleteArtifact_err] at h
        | false =>
          simp [hdl, hup, hrm, deleteArtifact_temp_ok] at h
          exact h.symm

/-- Once the version and its plugin are found and the version is pending,
a PUBLISH decision routes to handlePublishDecision. -/
lemma submitReview_publish_eq (sys : SysState) (f : Faults) (vid rb : String)
    (rr : Option String) (now : Nat) (v : PluginVersion) (p : Plugin)
    (hv : findVersionById sys.db vid = some v)
    (hp : findPluginById sys.db v.pluginId = some p)
    (hpend : isValidTransition v.status ReviewDecision.PUBLISH = true) :
    submitReviewDecision sys f vid ReviewDecision.PUBLISH rb rr now =
      handlePublishDecision sys f v p rb now := by
  unfold submitReviewDecision
  simp [hv, hp, hpend, performAutomatedSafetyCheck]

/-- Claim C2: a successful PUBLISH decision on a pending version that
carries a staged temp artifact leaves the version PUBLISHED with its temp
path cleared and its permanent location recorded, and the plugin
PUBLISHED pointing at that version as latest. -/
theorem publish_decision_postconditions
    (sys : SysState) (f : Faults) (vid rb : String) (now : Nat)
    (v : PluginVersion) (p : Plugin) (tp : String)
    (hv : findVersionById sys.db vid = some v)
    (hp : findPluginById sys.db v.pluginId = some p)
    (hpend : isValidTransition v.status ReviewDecision.PUBLISH = true)
    (htp : v.tempStoragePath = some tp)
    (hok : (submitReviewDecision sys f vid ReviewDecision.PUBLISH rb none now).snd =
      Except.ok ()) :
    ∃ v2 p2,
      findVersionById
          (submitReviewDecision sys f vid ReviewDecision.PUBLISH rb none now).fst.db
          vid = some v2 ∧
      findPluginById
          (submitReviewDecision sys f vid ReviewDecision.PUBLISH rb none now).fst.db
          v.pluginId = some p2 ∧
      v2.status = VersionStatus.PUBLISHED ∧
      v2.tempStoragePath = none ∧
      v2.storagePath = some (getArtifactPath p.packageId v.version) ∧
      v2.storageBucket = some pluginsBucket ∧
      p2.latestVersionId = some vid ∧
      p2.status = PluginStatus.PUBLISHED := by
  have hvid : v.id = vid := by simpa using List.find?_some hv
  have hpid : p.id = v.pluginId := by simpa using List.find?_some hp
  rw [submitReview_publish_eq sys f vid rb none now v p hv hp hpend] at hok ⊢
  unfold handlePublishDecision at hok ⊢
  rw [htp] at hok ⊢
  cases hmv : (moveArtifact sys.store f tp p.packageId v.version).snd with
  | error e =>
    simp [hmv] at hok
  | ok t =>
    have htt := moveArtifact_ok_target sys.store f tp p.packageId v.version t hmv
    subst htt
    simp only [hmv]
    unfold publishTail
    rw [hvid, hpid]
    have h1 := find?_map_update (fun w : PluginVersion => w.id) sys.db.versions vid
      (fun w => { w with storagePath := some (getArtifactPath p.packageId v.version),
                         storageBucket := some pluginsBucket,
                         tempStoragePath := none })
      (fun w => rfl) v hv
    have h2 := find?_map_update (fun w : PluginVersion => w.id)
      (sys.db.versions.map (fun w =>
        if w.id == vid then
          { w with storagePath := some (getArtifactPath p.packageId v.version),
                   storageBucket := some pluginsBucket,
                   tempStoragePath := none }
        else w))
      vid
      (fun w => { w with status := VersionStatus.PUBLISHED, reviewedAt := some now,
                         reviewedBy := some rb, rejectionReason := none,
                         publishedAt := some now })
      (fun w => rfl) _ h1
    have h3 := find?_map_update (fun q : Plugin => q.id) sys.db.plugins v.pluginId
      (fun q => { q with latestVersionId := some vid,
                         status := PluginStatus.PUBLISHED })
      (fun q => rfl) p hp
    exact ⟨_, _, h2, h3, rfl, rfl, rfl, rfl, rfl, rfl⟩

/-- A pending version carrying a staged temp artifact. -/
def c2V : PluginVersion :=
  { mkVersion ("v2") ("p2") ("1.0.0") ("1.0.0") VersionStatus.PENDING_REVIEW 1 with
    tempStoragePath := some ("t/b") }

/-- Its plugin. -/
def c2P : Plugin :=
  mkPlugin ("p2") ("com.example.d") PluginStatus.PENDING_REVIEW none

/-- System for the C2 witness: the staged artifact is present in temp. -/
def c2Sys : SysState :=
  { db := { plugins := [c2P], versions := [c2V] },
    store := { temp := [(("t/b"), ("blob"))], perm := [], icons := [] } }

/-- Witness for C2: publishing the concrete pending version yields the
claimed postconditions. -/
theorem publish_decision_postconditions_witness :
    ∃ v2 p2,
      findVersionById
          (submitReviewDecision c2Sys noFaults ("v2") ReviewDecision.PUBLISH
            ("admin") none 9).fst.db ("v2") = some v2 ∧
      findPluginById
          (submitReviewDecision c2Sys noFaults ("v2") ReviewDecision.PUBLISH
            ("admin") none 9).fst.db c2V.pluginId = some p2 ∧
      v2.status = VersionStatus.PUBLISHED ∧
      v2.tempStoragePath = none ∧
      v2.storagePath = some (getArtifactPath c2P.packageId c2V.version) ∧
      v2.storageBucket = some pluginsBucket ∧
      p2.latestVersionId = some ("v2") ∧
      p2.status = PluginStatus.PUBLISHED :=
  publish_decision_postconditions c2Sys noFaults ("v2") ("admin") 9 c2V c2P
    ("t/b") (by decide) (by decide) (by decide) (by decide) (by decide)

/-! ## C3 — reject-time latest reassignment -/

/-- Rejecting one row leaves exactly the other PUBLISHED rows of the
plugin in the published filter: the updated row is REJECTED and every
untouched row passes the same predicate as before. -/
lemma filter_published_reject (l : List PluginVersion) (vid pidKey : String)
    (g : PluginVersion → PluginVersion)
    (hgstat : ∀ w, (g w).status = VersionStatus.REJECTED) :
    (l.map (fun w => if w.id == vid then g w else w)).filter
        (fun w => w.pluginId == pidKey && w.status == VersionStatus.PUBLISHED)
      = l.filter (fun w =>
          w.pluginId == pidKey && w.status == VersionStatus.PUBLISHED &&
            w.id != vid) := by
  induction l with
  | nil => rfl
  | cons a l ih =>
    by_cases h : a.id = vid
    · have hb : (a.id == vid) = true := by simp [h]
      have h1 : ((g a).pluginId == pidKey &&
          (g a).status == VersionStatus.PUBLISHED) = false := by
        simp [hgstat]
      have h2 : (a.pluginId == pidKey && a.status == VersionStatus.PUBLISHED &&
          (a.id != vid)) = false := by
        simp [h]
      simp only [List.map_cons, List.filter_cons, hb, ite_true, h1, h2,
        Bool.false_eq_true, if_false]
      exact ih
    · have hb : (a.id == vid) = false := by simp [h]
      have h2 : (a.pluginId == pidKey && a.status == VersionStatus.PUBLISHED &&
            (a.id != vid))
          = (a.pluginId == pidKey && a.status == VersionStatus.PUBLISHED) := by
        simp [h]
      simp only [List.map_cons, List.filter_cons, hb, Bool.false_eq_true,
        if_false, h2]
      rw [ih]

/-- The head of the repository's created_at-descending sort is a most
recently created element. -/
lemma insertionSort_head_max (l : List PluginVersion) (top : PluginVersion)
    (rest : List PluginVersion)
    (h : List.insertionSort createdDescOrder l = top :: rest) :
    top ∈ l ∧ ∀ w ∈ l, w.createdAt ≤ top.createdAt := by
  have hperm : List.Perm (List.insertionSort createdDescOrder l) l :=
    List.perm_insertionSort createdDescOrder l
  have hsort : List.Sorted createdDescOrder (List.insertionSort createdDescOrder l) :=
    List.sorted_insertionSort createdDescOrder l
  rw [h] at hperm hsort
  rw [List.sorted_cons] at hsort
  constructor
  · exact hperm.subset (List.mem_cons_self top rest)
  · intro w hw
    have hw2 : w ∈ top :: rest := (hperm.mem_iff).mpr hw
    rcases List.mem_cons.mp hw2 with hEq | hmem
    · exact hEq ▸ Nat.le_refl _
    · exact hsort.1 w hmem

/-- Once the version and its plugin are found and the version is pending,
a REJECT decision routes to handleRejectDecision. -/
lemma submitReview_reject_eq (sys : SysState) (f : Faults) (vid rb : String)
    (rr : Option String) (now : Nat) (v : PluginVersion) (p : Plugin)
    (hv : findVersionById sys.db vid = some v)
    (hp : findPluginById sys.db v.pluginId = some p)
    (hpend : isValidTransition v.status ReviewDecision.REJECT = true) :
    submitReviewDecision sys f vid ReviewDecision.REJECT rb rr now =
      handleRejectDecision sys f v p rb rr now := by
  unfold submitReviewDecision
  simp [hv, hp, hpend]

/-- Claim C3: rejecting the version that is the plugin's current latest
promotes the most recently created remaining PUBLISHED version of the
plugin, and when none exists clears latestVersionId and demotes the
plugin to REJECTED. -/
theorem reject_latest_reassignment
    (sys : SysState) (f : Faults) (vid rb : String) (rr : Option String)
    (now : Nat) (v : PluginVersion) (p : Plugin)
    (hv : findVersionById sys.db vid = some v)
    (hp : findPluginById sys.db v.pluginId = some p)
    (hpend : isValidTransition v.status ReviewDecision.REJECT = true)
    (hlatest : p.latestVersionId = some v.id) :
    (submitReviewDecision sys f vid ReviewDecision.REJECT rb rr now).snd =
      Except.ok () ∧
    ∃ p2, findPluginById
        (submitReviewDecision sys f vid ReviewDecision.REJECT rb rr now).fst.db
        v.pluginId = some p2 ∧
      ((sys.db.versions.filter (fun w =>
          w.pluginId == p.id && w.status == VersionStatus.PUBLISHED &&
            w.id != v.id) = [] ∧
        p2.latestVersionId = none ∧ p2.status = PluginStatus.REJECTED) ∨
       (∃ m, m ∈ sys.db.versions.filter (fun w =>
            w.pluginId == p.id && w.status == VersionStatus.PUBLISHED &&
              w.id != v.id) ∧
         p2.latestVersionId = some m.id ∧
         ∀ w ∈ sys.db.versions.filter (fun w =>
            w.pluginId == p.id && w.status == VersionStatus.PUBLISHED &&
              w.id != v.id),
           w.createdAt ≤ m.createdAt)) := by
  have hpid : p.id = v.pluginId := by simpa using List.find?_some hp
  have hfp : findPublishedVersions
      (updateVersionRec sys.db v.id (fun w =>
        { w with status := VersionStatus.REJECTED, reviewedAt := some now,
                 reviewedBy := some rb, rejectionReason := rr,
                 tempStoragePath := none })) v.pluginId
      = List.insertionSort createdDescOrder
          (sys.db.versions.filter (fun w =>
            w.pluginId == v.pluginId && w.status == VersionStatus.PUBLISHED &&
              w.id != v.id)) := by
    unfold findPublishedVersions updateVersionRec
    exact congrArg (List.insertionSort createdDescOrder)
      (filter_published_reject sys.db.versions v.id v.pluginId _ (fun w => rfl))
  rw [submitReview_reject_eq sys f vid rb rr now v p hv hp hpend]
  unfold handleRejectDecision
  rw [hpid, hlatest]
  simp only [beq_self_eq_true, eq_self_iff_true, ite_true, if_true, hfp]
  cases hsorted : List.insertionSort createdDescOrder
      (sys.db.versions.filter (fun w =>
        w.pluginId == v.pluginId && w.status == VersionStatus.PUBLISHED &&
          w.id != v.id)) with
  | nil =>
    have hR : sys.db.versions.filter (fun w =>
        w.pluginId == v.pluginId && w.status == VersionStatus.PUBLISHED &&
          w.id != v.id) = [] := by
      have hpm := List.perm_insertionSort createdDescOrder
        (sys.db.versions.filter (fun w =>
          w.pluginId == v.pluginId && w.status == VersionStatus.PUBLISHED &&
            w.id != v.id))
      rw [hsorted] at hpm
      exact (hpm.symm).eq_nil
    refine ⟨rfl, ?_⟩
    have h3 := find?_map_update (fun q : Plugin => q.id) sys.db.plugins
      v.pluginId
      (fun q => { q with latestVersionId := none,
                         status := PluginStatus.REJECTED })
      (fun q => rfl) p hp
    exact ⟨_, h3, Or.inl ⟨hR, rfl, rfl⟩⟩
  | cons top rest =>
    obtain ⟨hmem, hmax⟩ := insertionSort_head_max _ top rest hsorted
    refine ⟨rfl, ?_⟩
    have h3 := find?_map_update (fun q : Plugin => q.id) sys.db.plugins
      v.pluginId
      (fun q => { q with latestVersionId := some top.id })
      (fun q => rfl) p hp
    exact ⟨_, h3, Or.inr ⟨top, hmem, rfl, hmax⟩⟩

/-- A pending version that is (unusually) the plugin's latest. -/
def c3V : PluginVersion :=
  mkVersion ("v3") ("p3") ("2.0.0") ("1.0.0") VersionStatus.PENDING_REVIEW 5

/-- An older PUBLISHED version of the same plugin. -/
def c3VOld : PluginVersion :=
  mkVersion ("v3o") ("p3") ("1.0.0") ("1.0.0") VersionStatus.PUBLISHED 3

/-- The most recently created PUBLISHED version of the same plugin. -/
def c3VNew : PluginVersion :=
  mkVersion ("v3n") ("p3") ("1.1.0") ("1.0.0") VersionStatus.PUBLISHED 4

/-- The plugin pointing at the pending version as latest. -/
def c3P : Plugin :=
  mkPlugin ("p3") ("com.example.e") PluginStatus.PUBLISHED (some ("v3"))

/-- System for the C3 witness. -/
def c3Sys : SysState :=
  { db := { plugins := [c3P], versions := [c3V, c3VOld, c3VNew] },
    store := emptyStore }

/-- Witness for C3: rejecting the latest version of the concrete plugin
promotes the most recently created remaining PUBLISHED version. -/
theorem reject_latest_reassignment_witness :
    (submitReviewDecision c3Sys noFaults ("v3") ReviewDecision.REJECT
        ("admin") none 9).snd = Except.ok () ∧
    ∃ p2, findPluginById
        (submitReviewDecision c3Sys noFaults ("v3") ReviewDecision.REJECT
          ("admin") none 9).fst.db c3V.pluginId = some p2 ∧
      ((c3Sys.db.versions.filter (fun w =>
          w.pluginId == c3P.id && w.status == VersionStatus.PUBLISHED &&
            w.id != c3V.id) = [] ∧
        p2.latestVersionId = none ∧ p2.status = PluginStatus.REJECTED) ∨
       (∃ m, m ∈ c3Sys.db.versions.filter (fun w =>
            w.pluginId == c3P.id && w.status == VersionStatus.PUBLISHED &&
              w.id != c3V.id) ∧
         p2.latestVersionId = some m.id ∧
         ∀ w ∈ c3Sys.db.versions.filter (fun w =>
            w.pluginId == c3P.id && w.status == VersionStatus.PUBLISHED &&
              w.id != c3V.id),
           w.createdAt ≤ m.createdAt)) :=
  reject_latest_reassignment c3Sys noFaults ("v3") ("admin") none 9 c3V c3P
    (by decide) (by decide) (by decide) (by decide)

/-! ## C6 — artifact reference fields at creation -/

/-- A minimal extracted package without an icon. -/
def c6Pkg : SynxPackage :=
  { manifestName := some ("Demo"), manifestVersion := some ("1.0.0"),
    manifestDescription := none, manifestAuthor := none,
    manifestMinAppVersion := some ("1.0.0"), manifest := [],
    jsCode := "code", iconData := none, iconName := none }

/-- A fresh submission of that package into an empty system. -/
def c6Run : SysState × Except StoreError PluginVersion :=
  submitPluginSynx { db := { plugins := [], versions := [] }, store := emptyStore }
    noFaults ("bytes") ("com.example.demo") (Except.ok c6Pkg) ("p6") ("v6") 100

/-- Claim C6 counterexample: the version record created by a staged
submission is SUBMITTED but its storagePath is already set (to the future
permanent artifact path) and its storageBucket to the temp bucket name —
submitPluginSynx passes uploadResult.storagePath and uploadResult.bucket
into the insert, so the columns are not null until published. -/
theorem submission_storage_path_counterexample :
    (c6Run.snd.toOption.map (fun v => v.status)) = some VersionStatus.SUBMITTED ∧
    (c6Run.snd.toOption.map (fun v => v.storagePath)) =
      some (some ("com.example.demo/v1.0.0/plugin.synx")) ∧
    (c6Run.snd.toOption.map (fun v => v.storageBucket)) =
      some (some ("temp_uploads")) ∧
    (c6Run.snd.toOption.map (fun v => v.tempStoragePath)) =
      some (some ("temp_100/com.example.demo/v1.0.0/plugin.synx")) := by
  refine ⟨by decide, by decide, by decide, by decide⟩

/-- A string of positive length is not the empty string under `==`. -/
lemma beq_empty_of_length (s : String) (h : 0 < s.length) : (s == "") = false := by
  cases hb : s == "" with
  | false => rfl
  | true =>
    have hs : s = "" := by simpa using hb
    subst hs
    simp at h

/-- The deterministic artifact path is never empty. -/
lemma artifact_path_ne_empty (pid ver : String) :
    ((getArtifactPath pid ver) == "") = false := by
  apply beq_empty_of_length
  unfold getArtifactPath
  have h12 : ("/plugin.synx" : String).length = 12 := rfl
  rw [String.length_append, String.length_append, String.length_append, h12]
  omega

/-- The time-derived temp path is never empty. -/
lemma temp_path_ne_empty (now : Nat) (pid ver : String) :
    (("temp_" ++ toString now ++ "/" ++ getArtifactPath pid ver) == "") = false := by
  apply beq_empty_of_length
  have h5 : ("temp_" : String).length = 5 := rfl
  rw [String.length_append, String.length_append, String.length_append, h5]
  omega

/-- `x || null` keeps a string known to be non-empty. -/
lemma strOrNull_some_of_ne (s : String) (h : (s == "") = false) :
    strOrNull (some s) = some s := by
  simp [strOrNull, h]

/-- Fields of the version row created by a successful
PluginsService.submitPlugin call. -/
lemma submitPlugin_ok_fields (db : DbState) (f : Faults)
    (pid name desc auth : String) (iconKey cat tags srcUrl : Option String)
    (ver : String) (man : List (String × String)) (mav : String)
    (rn sp sb tsp : Option String) (fsb : Option Nat) (cs : Option String)
    (npid nvid : String) (now : Nat) (v' : PluginVersion)
    (h : (submitPlugin db f pid name desc auth iconKey cat tags srcUrl ver man
        mav rn sp sb tsp fsb cs npid nvid now).snd = Except.ok v') :
    v'.status = VersionStatus.SUBMITTED ∧
    v'.storagePath = strOrNull sp ∧
    v'.storageBucket = strOrNull sb ∧
    v'.tempStoragePath = strOrNull tsp := by
  unfold submitPlugin submitPluginCreateVersion versionsCreate at h
  cases hfind : findPluginByPackageId db pid with
  | none =>
    simp only [hfind] at h
    cases hdb : f.dbCreateError with
    | true => simp [hdb] at h
    | false =>
      simp only [hdb, Bool.false_eq_true, if_false, ite_false] at h
      simp at h
      subst h
      exact ⟨rfl, rfl, rfl, rfl⟩
  | some plugin =>
    simp only [hfind] at h
    cases hconf : db.versions.find? (fun v => v.pluginId == plugin.id &&
        v.version == ver) with
    | some w => simp [hconf] at h
    | none =>
      simp only [hconf] at h
      cases hdb : f.dbCreateError with
      | true => simp [hdb] at h
      | false =>
        simp only [hdb, Bool.false_eq_true, if_false, ite_false] at h
        cases hst : (plugin.status == PluginStatus.SUBMITTED) <;>
          simp only [hst, Bool.false_eq_true, if_false, ite_false, if_true,
            ite_true] at h <;>
          (simp at h; subst h; exact ⟨rfl, rfl, rfl, rfl⟩)

/-- Fields of the version row created by a successful run of the staged
part of the submission (artifact staging plus record creation). -/
lemma stage2_ok_fields (sys : SysState) (f : Faults) (fb pid : String)
    (man : List (String × String)) (ver name desc auth mav : String)
    (iconKey : Option String) (npid nvid : String) (now : Nat)
    (v' : PluginVersion)
    (h : (submitSynxStage2 sys f fb pid man ver name desc auth mav iconKey
        npid nvid now).snd = Except.ok v') :
    v'.status = VersionStatus.SUBMITTED ∧
    v'.storagePath = some (getArtifactPath pid ver) ∧
    v'.storageBucket = some tempUploadsBucket ∧
    v'.tempStoragePath =
      some ("temp_" ++ toString now ++ "/" ++ getArtifactPath pid ver) := by
  unfold submitSynxStage2 uploadArtifact at h
  cases hart : f.artifactUploadError with
  | true => simp [hart] at h
  | false =>
    simp only [hart, Bool.false_eq_true, if_false, ite_false] at h
    split at h
    · simp at h
    · rename_i cv heq
      simp only [] at h
      have hcv : cv = v' := by simpa using h
      subst hcv
      obtain ⟨h1, h2, h3, h4⟩ := submitPlugin_ok_fields _ _ _ _ _ _ _ _ _ _ _ _
        _ _ _ _ _ _ _ _ _ _ _ heq
      refine ⟨h1, ?_, ?_, ?_⟩
      · rw [h2]
        exact strOrNull_some_of_ne _ (artifact_path_ne_empty pid ver)
      · rw [h3]
        exact strOrNull_some_of_ne _ (by decide)
      · rw [h4]
        exact strOrNull_some_of_ne _ (temp_path_ne_empty now pid ver)

/-- Claim C6 as amended: the version record created by a staged submission
carries a non-null tempStoragePath as staged, but storagePath and
storageBucket are not null while it is SUBMITTED: they are set at creation
to the future permanent artifact path and to the temp bucket name
respectively (the create call receives uploadResult.storagePath and
uploadResult.bucket). -/
theorem submission_sets_artifact_reference_at_creation
    (sys : SysState) (f : Faults) (fb pid : String) (pkg : SynxPackage)
    (npid nvid : String) (now : Nat) (v' : PluginVersion)
    (hok : (submitPluginSynx sys f fb pid (Except.ok pkg) npid nvid now).snd =
      Except.ok v') :
    v'.status = VersionStatus.SUBMITTED ∧
    v'.storagePath =
      some (getArtifactPath pid (pkg.manifestVersion.getD ("1.0.0"))) ∧
    v'.storageBucket = some tempUploadsBucket ∧
    v'.tempStoragePath =
      some ("temp_" ++ toString now ++ "/" ++
        getArtifactPath pid (pkg.manifestVersion.getD ("1.0.0"))) := by
  unfold submitPluginSynx at hok
  cases hic : pkg.iconData with
  | none =>
    cases hin : pkg.iconName with
    | none =>
      simp only [hic, hin] at hok
      exact stage2_ok_fields _ _ _ _ _ _ _ _ _ _ _ _ _ _ _ hok
    | some nm =>
      simp only [hic, hin] at hok
      exact stage2_ok_fields _ _ _ _ _ _ _ _ _ _ _ _ _ _ _ hok
  | some dat =>
    cases hin : pkg.iconName with
    | none =>
      simp only [hic, hin] at hok
      exact stage2_ok_fields _ _ _ _ _ _ _ _ _ _ _ _ _ _ _ hok
    | some nm =>
      simp only [hic, hin] at hok
      split at hok
      · simp at hok
      · exact stage2_ok_fields _ _ _ _ _ _ _ _ _ _ _ _ _ _ _ hok

/-- Witness for the amended C6: the concrete fresh submission. -/
theorem submission_sets_artifact_reference_at_creation_witness :
    ∃ v', c6Run.snd = Except.ok v' ∧
      (v'.status = VersionStatus.SUBMITTED ∧
       v'.storagePath =
         some (getArtifactPath ("com.example.demo")
           (c6Pkg.manifestVersion.getD ("1.0.0"))) ∧
       v'.storageBucket = some tempUploadsBucket ∧
       v'.tempStoragePath =
         some ("temp_" ++ toString 100 ++ "/" ++
           getArtifactPath ("com.example.demo")
             (c6Pkg.manifestVersion.getD ("1.0.0")))) := by
  cases hsnd : c6Run.snd with
  | error e =>
    have hiso : c6Run.snd.isOk = true := by decide
    rw [hsnd] at hiso
    simp [Except.isOk, Except.toBool] at hiso
  | ok v' =>
    refine ⟨v', rfl, ?_⟩
    exact submission_sets_artifact_reference_at_creation
      { db := { plugins := [], versions := [] }, store := emptyStore }
      noFaults ("bytes") ("com.example.demo") c6Pkg ("p6") ("v6") 100 v' hsnd

/-! ## C7 — compensating cleanup on failed submission -/

/-- After cleanup the staged temp artifact is gone (backend faults off). -/
lemma cleanup_removes_temp (store : Storage) (f : Faults)
    (iconKey : Option String) (tp : String) (hrm : f.removeError = false) :
    lookupB (cleanupFailedUpload store f iconKey (some tp)).temp tp = none := by
  unfold cleanupFailedUpload
  rw [hrm]
  cases iconKey with
  | none =>
    show lookupB ((deleteArtifact store tp tempUploadsBucket false).fst).temp tp = none
    rw [deleteArtifact_temp_ok]
    exact lookupB_eraseB _ _
  | some key =>
    show lookupB ((deleteArtifact (deleteArtifact store key iconsBucket false).fst
        tp tempUploadsBucket false).fst).temp tp = none
    rw [deleteArtifact_icons_ok, deleteArtifact_temp_ok]
    exact lookupB_eraseB _ _

/-- After cleanup the icon recorded in the partial-upload state is gone
(backend faults off). -/
lemma cleanup_removes_icon (store : Storage) (f : Faults) (key tp : String)
    (hrm : f.removeError = false) :
    lookupB (cleanupFailedUpload store f (some key) (some tp)).icons key = none := by
  unfold cleanupFailedUpload
  rw [hrm]
  show lookupB ((deleteArtifact (deleteArtifact store key iconsBucket false).fst
      tp tempUploadsBucket false).fst).icons key = none
  rw [deleteArtifact_icons_ok, deleteArtifact_temp_ok]
  exact lookupB_eraseB _ _

/-- submitPlugin fails only with VersionConflict (duplicate pair) or the
rethrown insert failure. -/
lemma submitPlugin_err (db : DbState) (f : Faults)
    (pid name desc auth : String) (iconKey cat tags srcUrl : Option String)
    (ver : String) (man : List (String × String)) (mav : String)
    (rn sp sb tsp : Option String) (fsb : Option Nat) (cs : Option String)
    (npid nvid : String) (now : Nat) (e : StoreError)
    (h : (submitPlugin db f pid name desc auth iconKey cat tags srcUrl ver man
        mav rn sp sb tsp fsb cs npid nvid now).snd = Except.error e) :
    e = StoreError.versionConflict ∨ e = StoreError.internalError := by
  unfold submitPlugin submitPluginCreateVersion versionsCreate at h
  cases hfind : findPluginByPackageId db pid with
  | none =>
    simp only [hfind] at h
    cases hdb : f.dbCreateError with
    | true =>
      simp only [hdb, ite_true, if_true] at h
      right
      simpa using h.symm
    | false =>
      simp only [hdb, Bool.false_eq_true, if_false, ite_false] at h
      simp at h
  | some plugin =>
    simp only [hfind] at h
    cases hconf : db.versions.find? (fun v => v.pluginId == plugin.id &&
        v.version == ver) with
    | some w =>
      simp only [hconf] at h
      left
      simpa using h.symm
    | none =>
      simp only [hconf] at h
      cases hdb : f.dbCreateError with
      | true =>
        simp only [hdb, ite_true, if_true] at h
        right
        simpa using h.symm
      | false =>
        simp only [hdb, Bool.false_eq_true, if_false, ite_false] at h
        cases hst : (plugin.status == PluginStatus.SUBMITTED) <;>
          simp [hst] at h

/-- A failing staged submission tail: the error is the database failure
and the resulting store is exactly the compensating cleanup of the staged
state. -/
lemma stage2_err_analysis (sys : SysState) (f : Faults) (fb pid : String)
    (man : List (String × String)) (ver name desc auth mav : String)
    (iconKey : Option String) (npid nvid : String) (now : Nat) (e : StoreError)
    (hart : f.artifactUploadError = false)
    (he : (submitSynxStage2 sys f fb pid man ver name desc auth mav iconKey
        npid nvid now).snd = Except.error e) :
    (e = StoreError.versionConflict ∨ e = StoreError.internalError) ∧
    (submitSynxStage2 sys f fb pid man ver name desc auth mav iconKey
        npid nvid now).fst.store =
      cleanupFailedUpload
        { sys.store with
          temp := (insertB sys.store.temp
            ("temp_" ++ toString now ++ "/" ++ getArtifactPath pid ver) fb) }
        f iconKey
        (some ("temp_" ++ toString now ++ "/" ++ getArtifactPath pid ver)) := by
  unfold submitSynxStage2 uploadArtifact at he ⊢
  simp only [hart, Bool.false_eq_true, if_false, ite_false] at he ⊢
  split at he
  · rename_i e2 heq
    have hcls := submitPlugin_err _ _ _ _ _ _ _ _ _ _ _ _ _ _ _ _ _ _ _ _ _ _
      e2 heq
    have he2 : e2 = e := by simpa using he
    subst he2
    refine ⟨hcls, ?_⟩
    simp only [heq]
  · rename_i cv heq
    simp at he

/-- With icon-upload faults off, uploadIcon succeeds and returns the
content-addressed path (whether de-duplicated or freshly uploaded). -/
lemma uploadIcon_ok_of_no_fault (st : Storage) (f : Faults) (d n k : String)
    (hicon : f.iconUploadError = false) :
    (uploadIcon st f d n k).snd = Except.ok (k ++ extensionOf n) := by
  unfold uploadIcon
  cases hl : lookupB st.icons (k ++ extensionOf n) with
  | some x => simp [hl]
  | none => simp [hl, hicon]

/-- A submission whose package has no complete icon entry routes directly
to the staged tail. -/
lemma submitPluginSynx_noicon_eq (sys : SysState) (f : Faults)
    (fb pid : String) (pkg : SynxPackage) (npid nvid : String) (now : Nat)
    (h : pkg.iconData = none ∨ pkg.iconName = none) :
    submitPluginSynx sys f fb pid (Except.ok pkg) npid nvid now =
      submitSynxStage2 sys f fb pid pkg.manifest
        (pkg.manifestVersion.getD ("1.0.0")) (pkg.manifestName.getD pid)
        (pkg.manifestDescription.getD ("")) (pkg.manifestAuthor.getD ("Unknown"))
        (pkg.manifestMinAppVersion.getD ("1.0.0")) none npid nvid now := by
  unfold submitPluginSynx
  rcases h with h | h
  · simp only [h]
  · cases hd2 : pkg.iconData with
    | none => simp only [hd2]
    | some d2 => simp only [hd2, h]

/-- A submission with an icon and icon faults off uploads the
content-addressed icon and routes to the staged tail with its key
recorded. -/
lemma submitPluginSynx_icon_eq (sys : SysState) (f : Faults)
    (fb pid : String) (pkg : SynxPackage) (npid nvid : String) (now : Nat)
    (dat nm : String)
    (hic : pkg.iconData = some dat) (hin : pkg.iconName = some nm)
    (hicon : f.iconUploadError = false) :
    submitPluginSynx sys f fb pid (Except.ok pkg) npid nvid now =
      submitSynxStage2
        { db := sys.db,
          store := (uploadIcon sys.store f dat nm (calculateChecksum dat)).fst }
        f fb pid pkg.manifest (pkg.manifestVersion.getD ("1.0.0"))
        (pkg.manifestName.getD pid) (pkg.manifestDescription.getD (""))
        (pkg.manifestAuthor.getD ("Unknown"))
        (pkg.manifestMinAppVersion.getD ("1.0.0"))
        (some (calculateChecksum dat ++ extensionOf nm)) npid nvid now := by
  unfold submitPluginSynx
  simp only [hic, hin,
    uploadIcon_ok_of_no_fault sys.store f dat nm (calculateChecksum dat) hicon]

/-- Claim C7: when a staged submission fails after the artifact upload
(extraction and the icon and artifact uploads having succeeded), the
error surfaced is the original database failure, never a cleanup error,
and — backend faults off during cleanup — the staged temp artifact and
the icon recorded during the call are deleted before the error
propagates. -/
theorem submission_failure_cleanup
    (sys : SysState) (f : Faults) (fb pid npid nvid : String)
    (pkg : SynxPackage) (now : Nat) (e : StoreError)
    (hart : f.artifactUploadError = false)
    (hicon : f.iconUploadError = false)
    (he : (submitPluginSynx sys f fb pid (Except.ok pkg) npid nvid now).snd =
      Except.error e) :
    (e = StoreError.versionConflict ∨ e = StoreError.internalError) ∧
    (f.removeError = false →
      lookupB
        (submitPluginSynx sys f fb pid (Except.ok pkg) npid nvid now).fst.store.temp
        ("temp_" ++ toString now ++ "/" ++
          getArtifactPath pid (pkg.manifestVersion.getD ("1.0.0"))) = none) ∧
    (∀ d n, pkg.iconData = some d → pkg.iconName = some n →
      f.removeError = false →
      lookupB
        (submitPluginSynx sys f fb pid (Except.ok pkg) npid nvid now).fst.store.icons
        (calculateChecksum d ++ extensionOf n) = none) := by
  cases hic : pkg.iconData with
  | none =>
    rw [submitPluginSynx_noicon_eq sys f fb pid pkg npid nvid now (Or.inl hic)]
      at he ⊢
    obtain ⟨hcls, hst⟩ := stage2_err_analysis _ _ _ _ _ _ _ _ _ _ _ _ _ _ _
      hart he
    refine ⟨hcls, ?_, ?_⟩
    · intro hrm
      rw [hst]
      exact cleanup_removes_temp _ _ _ _ hrm
    · intro d n hd hn hrm
      simp at hd
  | some dat =>
    cases hin : pkg.iconName with
    | none =>
      rw [submitPluginSynx_noicon_eq sys f fb pid pkg npid nvid now (Or.inr hin)]
        at he ⊢
      obtain ⟨hcls, hst⟩ := stage2_err_analysis _ _ _ _ _ _ _ _ _ _ _ _ _ _ _
        hart he
      refine ⟨hcls, ?_, ?_⟩
      · intro hrm
        rw [hst]
        exact cleanup_removes_temp _ _ _ _ hrm
      · intro d n hd hn hrm
        simp at hn
    | some nm =>
      rw [submitPluginSynx_icon_eq sys f fb pid pkg npid nvid now dat nm hic
        hin hicon] at he ⊢
      obtain ⟨hcls, hst⟩ := stage2_err_analysis _ _ _ _ _ _ _ _ _ _ _ _ _ _ _
        hart he
      refine ⟨hcls, ?_, ?_⟩
      · intro hrm
        rw [hst]
        exact cleanup_removes_temp _ _ _ _ hrm
      · intro d n hd hn hrm
        cases hd
        cases hn
        rw [hst]
        exact cleanup_removes_icon _ _ _ _ hrm

/-- A package with an icon whose version collides with an existing row. -/
def c7Pkg : SynxPackage :=
  { manifestName := some ("W"), manifestVersion := some ("1.0.0"),
    manifestDescription := none, manifestAuthor := none,
    manifestMinAppVersion := some ("1.0.0"), manifest := [],
    jsCode := "c", iconData := some ("icondata"),
    iconName := some ("icon.png") }

/-- The plugin already holding version 1.0.0. -/
def c7P : Plugin :=
  mkPlugin ("p7") ("com.example.w7") PluginStatus.PENDING_REVIEW none

/-- The conflicting existing version row. -/
def c7V : PluginVersion :=
  mkVersion ("v7") ("p7") ("1.0.0") ("1.0.0") VersionStatus.SUBMITTED 1

/-- System for the C7 witness. -/
def c7Sys : SysState :=
  { db := { plugins := [c7P], versions := [c7V] }, store := emptyStore }

/-- Witness for C7: the concrete conflicting submission surfaces
VersionConflict and leaves neither the staged artifact nor the icon
behind. -/
theorem submission_failure_cleanup_witness :
    (StoreError.versionConflict = StoreError.versionConflict ∨
      StoreError.versionConflict = StoreError.internalError) ∧
    (noFaults.removeError = false →
      lookupB
        (submitPluginSynx c7Sys noFaults ("filebytes") ("com.example.w7")
          (Except.ok c7Pkg) ("np") ("nv") 50).fst.store.temp
        ("temp_" ++ toString 50 ++ "/" ++
          getArtifactPath ("com.example.w7")
            (c7Pkg.manifestVersion.getD ("1.0.0"))) = none) ∧
    (∀ d n, c7Pkg.iconData = some d → c7Pkg.iconName = some n →
      noFaults.removeError = false →
      lookupB
        (submitPluginSynx c7Sys noFaults ("filebytes") ("com.example.w7")
          (Except.ok c7Pkg) ("np") ("nv") 50).fst.store.icons
        (calculateChecksum d ++ extensionOf n) = none) :=
  submission_failure_cleanup c7Sys noFaults ("filebytes") ("com.example.w7")
    ("np") ("nv") c7Pkg 50 StoreError.versionConflict rfl rfl (by decide)
